import Mathlib

/-!
Verification of the wa-captor event relay (src/wa-qr-ia/wa-captor/index.js).

The source file installs three handlers on a whatsapp-web.js client
(the `qr`, `ready` and `message` events). They normalize events into JSON
payloads, filter group messages against GROUP_WHITELIST, sign the serialized
body with HMAC-SHA256 over HMAC_SECRET when configured, and POST the result
to an HTTP endpoint.

External collaborators (the whatsapp-web.js lookups, node-fetch, node's
crypto module) are modelled as inputs: every awaited external call is an
`Except Unit α` oracle result supplied to the handler, and an abstract
function argument `hmac : String → String → String` stands for
`crypto.createHmac('sha256', secret).update(body).digest('hex')`.
A JavaScript exception escaping a `try` block is `Except.error ()`.
JS `null`/`undefined` string values are `Option.none`, and JS truthiness
on strings (the empty string is falsy) is made explicit by the `jsOr`
helpers below.
-/

namespace WaCaptor

/-- JS `a || b` on nullable strings: `a` when `a` is a non-empty string,
else `b` (`null`, `undefined` and `""` are all falsy). -/
def jsOr (a b : Option String) : Option String :=
  match a with
  | some s => if s = "" then b else some s
  | none => b

/-- JS `s || null`: a non-empty string is kept; `""`, `null` and
`undefined` become `null`. -/
def jsOrNull (a : Option String) : Option String := jsOr a none

/-- JS `a || b` where the default `b` is a plain string. -/
def jsOrD (a : Option String) (b : String) : String :=
  match a with
  | some s => if s = "" then b else s
  | none => b

/-- JS `s.split('@')[0]`: the part of `s` before the first `@`
(all of `s` when there is no `@`). -/
def beforeAt (s : String) : String :=
  (s.toList.takeWhile (fun c => c ≠ '@')).asString

/-- index.js line 67:
`const senderNumber = ((msg.author || msg.from || '').split('@')[0]) || null;` -/
def senderNumberOf (author : Option String) (msgFrom : String) : Option String :=
  jsOrNull (some (beforeAt (jsOrD author msgFrom)))

/-- index.js line 57, the early-return condition negated:
`if (isGroup && GROUP_WHITELIST.length && !GROUP_WHITELIST.includes(groupName)) return;`
`shouldForward` is `true` exactly when the handler does not return early. -/
def shouldForward (wl : List String) (isGroup : Bool) (name : String) : Bool :=
  !(isGroup && !wl.isEmpty && !(wl.contains name))

/-- The signing block, index.js lines 92-96 (textually repeated at lines
26-30 and 41-45): start from `{'Content-Type': 'application/json'}` and add
an `x-signature` entry when `HMAC_SECRET` is truthy, i.e. a non-empty
string. The `hmac` argument abstracts node's
`crypto.createHmac('sha256', secret).update(body).digest('hex')`. -/
def signHeaders (hmac : String → String → String) (secret body : String) :
    List (String × String) :=
  if secret ≠ "" then
    [("Content-Type", "application/json"), ("x-signature", hmac secret body)]
  else
    [("Content-Type", "application/json")]

/-- index.js line 10: `const HMAC_SECRET = process.env.HMAC_SECRET || '';` -/
def resolveSecret (env : Option String) : String := jsOrD env ""

/-- The raw whatsapp-web.js message fields the handler reads. `from` is a
Lean keyword, so the field is spelled `msgFrom` (the JS property `msg.from`). -/
structure RawMsg where
  msgFrom : String
  author : Option String
  timestamp : Int
  body : Option String
  hasMedia : Bool
deriving DecidableEq

/-- Result of `msg.getChat()`. -/
structure Chat where
  isGroup : Bool
  name : String
deriving DecidableEq

/-- Result of `client.getContactById(...)` / `msg.getContact()`. -/
structure Contact where
  pushname : Option String
  name : Option String
  shortName : Option String
  verifiedName : Option String
deriving DecidableEq

/-- Result of `msg.downloadMedia()`. -/
structure Media where
  mimetype : String
  filename : Option String
  data : String
deriving DecidableEq

/-- The `type` field of the payload: `'text'` or `'media'`. -/
inductive MsgType
  | text
  | media
deriving DecidableEq

/-- The payload object built at index.js lines 70-81 and mutated at lines
83-89. JS `null` is `none`; the three media keys are absent (not `null`)
unless the `hasMedia` branch ran. -/
structure Payload where
  msgFrom : String
  author : Option String
  timestamp : Int
  isGroup : Bool
  groupName : Option String
  groupId : Option String
  senderName : Option String
  senderNumber : Option String
  type : MsgType
  text : Option String
  mimetype : Option String
  filename : Option String
  data_base64 : Option String
deriving DecidableEq

/-- index.js line 66:
`senderName = (contact && (contact.pushname || contact.name || contact.shortName || contact.verifiedName)) || null;` -/
def contactDisplayName (c : Contact) : Option String :=
  jsOrNull (jsOr c.pushname (jsOr c.name (jsOr c.shortName c.verifiedName)))

/-- Lines 70-81: the payload as first constructed — always `type: 'text'`
with `text: msg.body || null`, `author: msg.author || null`,
`groupName = isGroup ? chat.name : null` (line 55),
`groupId = isGroup ? msg.from : null` (line 69). -/
def basePayload (msg : RawMsg) (chat : Chat) (senderName : Option String) : Payload :=
  { msgFrom := msg.msgFrom
    author := jsOrNull msg.author
    timestamp := msg.timestamp
    isGroup := chat.isGroup
    groupName := if chat.isGroup then some chat.name else none
    groupId := if chat.isGroup then some msg.msgFrom else none
    senderName := senderName
    senderNumber := senderNumberOf msg.author msg.msgFrom
    type := MsgType.text
    text := jsOrNull msg.body
    mimetype := none
    filename := none
    data_base64 := none }

/-- Lines 84-88, the mutations applied after a successful `downloadMedia()`:
`payload.type = 'media'; payload.mimetype = media.mimetype;
payload.filename = media.filename || 'file.bin';
payload.data_base64 = media.data;` — note nothing clears `payload.text`. -/
def attachMedia (p : Payload) (m : Media) : Payload :=
  { p with
    type := MsgType.media
    mimetype := some m.mimetype
    filename := some (jsOrD m.filename "file.bin")
    data_base64 := some m.data }

/-- The payload the message handler serializes and posts: the base payload,
with the media fields attached when a successful download result is present. -/
def payloadOf (msg : RawMsg) (chat : Chat) (senderName : Option String)
    (media : Option Media) : Payload :=
  match media with
  | none => basePayload msg chat senderName
  | some m => attachMedia (basePayload msg chat senderName) m

/-- A JSON value as far as this payload needs. -/
inductive Jv
  | null
  | str (s : String)
  | num (n : Int)
  | bool (b : Bool)
deriving DecidableEq

/-- A nullable string serializes to JSON `null` or a JSON string. -/
def jopt : Option String → Jv
  | none => Jv.null
  | some s => Jv.str s

/-- The serialized `type` tag. -/
def typeTag : MsgType → String
  | MsgType.text => "text"
  | MsgType.media => "media"

/-- The key/value structure of `JSON.stringify(payload)` (line 91): keys in
insertion order; the media keys appear only when they were assigned. -/
def payloadFields (p : Payload) : List (String × Jv) :=
  [("from_", Jv.str p.msgFrom),
   ("author", jopt p.author),
   ("timestamp", Jv.num p.timestamp),
   ("isGroup", Jv.bool p.isGroup),
   ("groupName", jopt p.groupName),
   ("groupId", jopt p.groupId),
   ("senderName", jopt p.senderName),
   ("senderNumber", jopt p.senderNumber),
   ("type", Jv.str (typeTag p.type)),
   ("text", jopt p.text)]
  ++ (match p.mimetype with | none => [] | some s => [("mimetype", Jv.str s)])
  ++ (match p.filename with | none => [] | some s => [("filename", Jv.str s)])
  ++ (match p.data_base64 with | none => [] | some s => [("data_base64", Jv.str s)])

/-- One external call performed by the message handler, in program order. -/
inductive Effect
  | getChat
  | getContact
  | downloadMedia
  | postIngest (p : Payload)
deriving DecidableEq

/-- The oracle results the message handler's awaited calls will return. -/
structure MsgOracle where
  chat : Except Unit Chat
  contact : Except Unit Contact
  media : Except Unit Media
  fetchIngest : Except Unit Unit

/-- Normal completions of the message handler's `try` body. -/
inductive MsgDone
  | filtered
  | delivered (p : Payload)
deriving DecidableEq

/-- Observable outcome of the whole message handler. -/
inductive MsgOutcome
  | filtered
  | errorLogged
  | delivered (p : Payload)
deriving DecidableEq

/-- The body of the message handler's `try` block (index.js lines 52-102),
with each awaited external call replaced by its oracle result.
`Except.error ()` is a JS exception escaping the `try` block; the effect
list records the external calls made, in order. The contact lookup sits in
its own inner `try`/`catch` (lines 61-65), so its failure only degrades
`senderName`. -/
def messageTry (wl : List String) (msg : RawMsg) (o : MsgOracle) :
    List Effect × Except Unit MsgDone :=
  match o.chat with
  | Except.error _ => ([Effect.getChat], Except.error ())
  | Except.ok chat =>
    if !(shouldForward wl chat.isGroup chat.name) then
      ([Effect.getChat], Except.ok MsgDone.filtered)
    else
      let senderName :=
        match o.contact with
        | Except.error _ => none
        | Except.ok c => contactDisplayName c
      if msg.hasMedia then
        match o.media with
        | Except.error _ =>
          ([Effect.getChat, Effect.getContact, Effect.downloadMedia], Except.error ())
        | Except.ok m =>
          let p := payloadOf msg chat senderName (some m)
          ([Effect.getChat, Effect.getContact, Effect.downloadMedia, Effect.postIngest p],
            match o.fetchIngest with
            | Except.error _ => Except.error ()
            | Except.ok _ => Except.ok (MsgDone.delivered p))
      else
        let p := payloadOf msg chat senderName none
        ([Effect.getChat, Effect.getContact, Effect.postIngest p],
          match o.fetchIngest with
          | Except.error _ => Except.error ()
          | Except.ok _ => Except.ok (MsgDone.delivered p))

/-- The whole message handler: the `try` body with the outer
`catch (e) { console.error('Error', e); }` (lines 103-105) applied, so the
handler always returns a value instead of throwing. -/
def handleMessage (wl : List String) (msg : RawMsg) (o : MsgOracle) :
    List Effect × MsgOutcome :=
  let r := messageTry wl msg o
  (r.1,
    match r.2 with
    | Except.error _ => MsgOutcome.errorLogged
    | Except.ok MsgDone.filtered => MsgOutcome.filtered
    | Except.ok (MsgDone.delivered p) => MsgOutcome.delivered p)

/-- Observable outcome of the `qr` and `ready` handlers: the POST happened,
or its failure was caught by the handler's `catch`. -/
inductive QrOutcome
  | posted (qr : Option String)
  | errorCaught
deriving DecidableEq

/-- The `qr` handler (lines 21-35): posts `{qr}` to QR_ENDPOINT inside
`try { ... } catch (e) { console.error('No se pudo publicar el QR', e); }`. -/
def qrHandler (code : String) (fetchRes : Except Unit Unit) : QrOutcome :=
  match fetchRes with
  | Except.ok _ => QrOutcome.posted (some code)
  | Except.error _ => QrOutcome.errorCaught

/-- The console output of one `qr` handler run: `console.log` at line 22
always, and `console.error` at line 33 when the POST failed. (The
qrcode-terminal rendering at line 23 is an external library call, left
out.) -/
def qrHandlerLogs (fetchRes : Except Unit Unit) : List String :=
  "Escaneá este QR:" ::
    (match fetchRes with
     | Except.ok _ => []
     | Except.error _ => ["No se pudo publicar el QR"])

/-- The `ready` handler (lines 37-49): posts `{qr: null}` inside
`try { ... } catch {}` — the catch block at line 48 is empty. -/
def readyHandler (fetchRes : Except Unit Unit) : QrOutcome :=
  match fetchRes with
  | Except.ok _ => QrOutcome.posted none
  | Except.error _ => QrOutcome.errorCaught

/-- The console output of one `ready` handler run: `console.log` at line 38
always, and nothing else — the `catch {}` at line 48 logs nothing. -/
def readyHandlerLogs (fetchRes : Except Unit Unit) : List String :=
  match fetchRes with
  | Except.ok _ => ["WA listo ✅"]
  | Except.error _ => ["WA listo ✅"]

/-- The console output of one message handler run: `console.error('Error', e)`
at line 104 exactly when the `try` body raised. -/
def handleMessageLogs (wl : List String) (msg : RawMsg) (o : MsgOracle) :
    List String :=
  match (messageTry wl msg o).2 with
  | Except.error _ => ["Error"]
  | Except.ok _ => []

/-- The fate of one `fetch` call at the HTTP level: either the promise
rejects (network or timeout failure), or it resolves carrying a response
whose status may or may not be a success (`ok` is the 2xx flag of the
response object). -/
structure FetchOutcome where
  resolved : Bool
  ok : Bool
deriving DecidableEq

/-- What the code observes of a fetch: node-fetch (external collaborator)
rejects the promise only on network/timeout failure; a response with a
non-success status still resolves, and no handler in index.js ever reads
the response object, so the status — `ok` included — is dropped here. -/
def fetchObserved (r : FetchOutcome) : Except Unit Unit :=
  if r.resolved then Except.ok () else Except.error ()

/-- One session event together with the oracle results its handler will see. -/
inductive Event
  | qrEv (code : String) (fetchRes : Except Unit Unit)
  | readyEv (fetchRes : Except Unit Unit)
  | msgEv (msg : RawMsg) (o : MsgOracle)

/-- Outcome of handling one event. -/
inductive Outcome
  | qrOut (r : QrOutcome)
  | msgOut (fx : List Effect) (r : MsgOutcome)

/-- Dispatch one event to its handler. -/
def handleEvent (wl : List String) : Event → Outcome
  | Event.qrEv code f => Outcome.qrOut (qrHandler code f)
  | Event.readyEv f => Outcome.qrOut (readyHandler f)
  | Event.msgEv msg o =>
    let r := handleMessage wl msg o
    Outcome.msgOut r.1 r.2

/-- The handlers share no mutable state (configuration is read-only after
startup), so processing a list of events is an independent map. -/
def processEvents (wl : List String) (es : List Event) : List Outcome :=
  es.map (handleEvent wl)

/-- The `text` field group of the envelope invariant: `text` is present
(non-null). -/
def textGroupPresent (p : Payload) : Bool := p.text.isSome

/-- The media field group of the envelope invariant: all three media fields
are present. -/
def mediaGroupPresent (p : Payload) : Bool :=
  p.mimetype.isSome && p.filename.isSome && p.data_base64.isSome

/-- The spec's sentence on `senderNumber`, verbatim: it equals the substring
of (`author` if present, else `from`) before the first `@`, and is absent
exactly when that source field is empty. Used to compare against the code's
`senderNumberOf`. -/
def specSenderNumber (author : Option String) (msgFrom : String) : Option String :=
  let src :=
    match author with
    | some a => a
    | none => msgFrom
  if src = "" then none else some (beforeAt src)

/-- The spec's sentence on the `text` field, verbatim: the body is carried
over unchanged, with `null`/absent becoming absent (so a non-null body is
preserved). Used to compare against the code's `text: msg.body || null`. -/
def specTextField (body : Option String) : Option String := body

/-- The amended `senderNumber` rule: the prefix before the first `@` of
(`author` if present and non-empty, else `from`), absent exactly when that
prefix is empty. -/
def specSenderNumberAmended (author : Option String) (msgFrom : String) :
    Option String :=
  let src :=
    match author with
    | some a => if a = "" then msgFrom else a
    | none => msgFrom
  let pre := beforeAt src
  if pre = "" then none else some pre

/-- Claim C2: the group filter forwards every non-group message regardless of
the whitelist; forwards everything when the whitelist is empty; and for a
group message with a non-empty whitelist it forwards iff the chat's group
name is a member of the whitelist under exact, case-sensitive string
comparison (`List.contains` with `String` equality, no normalization). -/
theorem c2_group_filter (wl : List String) (isGroup : Bool) (name : String) :
    (isGroup = false → shouldForward wl isGroup name = true)
    ∧ (wl = [] → shouldForward wl isGroup name = true)
    ∧ (isGroup = true → wl ≠ [] →
        (shouldForward wl isGroup name = true ↔ name ∈ wl)) := by
  refine ⟨?_, ?_, ?_⟩
  · intro h; subst h; simp [shouldForward]
  · intro h; subst h; simp [shouldForward]
  · intro hg hwl; subst hg
    simp [shouldForward, List.isEmpty_iff, hwl]

/-- Witness for C2 at concrete inputs: a non-group chat passes a whitelist
it is not on; an empty whitelist passes a group; a group named `Familia`
is blocked by the whitelist `["Trabajo"]`. -/
theorem c2_group_filter_witness :
    shouldForward ["Trabajo"] false "Familia" = true
    ∧ shouldForward [] true "Familia" = true
    ∧ shouldForward ["Trabajo"] true "Familia" = false := by
  refine ⟨(c2_group_filter ["Trabajo"] false "Familia").1 rfl,
          (c2_group_filter [] true "Familia").2.1 rfl, ?_⟩
  have h := (c2_group_filter ["Trabajo"] true "Familia").2.2 rfl (by decide)
  cases hsf : shouldForward ["Trabajo"] true "Familia" with
  | false => rfl
  | true => exact absurd (h.mp hsf) (by decide)

/-- Claim C3: with an absent or empty secret the signer returns exactly
`Content-Type: application/json` and never an `x-signature` header;
with a non-empty secret it returns that header plus `x-signature` bound to
the (hex HMAC-SHA256) digest of the body keyed by the secret, which the
abstract `hmac` argument stands for. -/
theorem c3_signer_headers (hmac : String → String → String) (secret body : String) :
    (secret = "" → signHeaders hmac secret body = [("Content-Type", "application/json")])
    ∧ (secret = "" → ∀ v, ("x-signature", v) ∉ signHeaders hmac secret body)
    ∧ (secret ≠ "" → signHeaders hmac secret body =
        [("Content-Type", "application/json"), ("x-signature", hmac secret body)])
    ∧ signHeaders hmac (resolveSecret none) body = [("Content-Type", "application/json")] := by
  refine ⟨?_, ?_, ?_, ?_⟩
  · intro h; simp [signHeaders, h]
  · intro h v; simp [signHeaders, h]
  · intro h; simp [signHeaders, h]
  · simp [signHeaders, resolveSecret, jsOrD]

/-- Witness for C3 at concrete inputs: an empty secret gives the bare
header, the secret `"k"` adds `x-signature` with the digest of the body. -/
theorem c3_signer_headers_witness :
    signHeaders (fun _ _ => "d") "" "b" = [("Content-Type", "application/json")]
    ∧ signHeaders (fun _ _ => "d") "k" "b" =
        [("Content-Type", "application/json"), ("x-signature", "d")] :=
  ⟨(c3_signer_headers (fun _ _ => "d") "" "b").1 rfl,
   (c3_signer_headers (fun _ _ => "d") "k" "b").2.2.1 (by decide)⟩

/-- Claim C4, counterexample: for `author = null` and `from = "@c.us"` the
source field is non-empty, so the claim demands `senderNumber` present and
equal to `""` (the part before the first `@`); the code's
`((author || from || '').split('@')[0]) || null` yields `null` instead. -/
theorem c4_counterexample_sender_number :
    senderNumberOf none "@c.us" = none
    ∧ specSenderNumber none "@c.us" = some ""
    ∧ senderNumberOf none "@c.us" ≠ specSenderNumber none "@c.us" := by
  refine ⟨?_, ?_, ?_⟩ <;> decide

/-- Claim C4 (amended): `senderNumber` is the substring before the first `@`
of (`author` if present and non-empty, else `from`), and it is absent
exactly when that substring is empty (not when the source field is empty). -/
theorem c4_amended_sender_number (author : Option String) (msgFrom : String) :
    senderNumberOf author msgFrom = specSenderNumberAmended author msgFrom := by
  cases author with
  | none => simp [senderNumberOf, specSenderNumberAmended, jsOrNull, jsOr, jsOrD]
  | some a =>
    by_cases h : a = "" <;>
      simp [senderNumberOf, specSenderNumberAmended, jsOrNull, jsOr, jsOrD, h]

/-- Claim C8, counterexample: a text message whose body is the empty string —
a non-null body — is not preserved verbatim: the code's `msg.body || null`
maps it to `null`, so the `text` field is absent. -/
theorem c8_counterexample_empty_body :
    (payloadOf
        { msgFrom := "1@c.us", author := none, timestamp := 0,
          body := some "", hasMedia := false }
        { isGroup := false, name := "" } none none).text = none
    ∧ specTextField (some "") = some ""
    ∧ (payloadOf
        { msgFrom := "1@c.us", author := none, timestamp := 0,
          body := some "", hasMedia := false }
        { isGroup := false, name := "" } none none).text ≠ specTextField (some "") := by
  refine ⟨rfl, rfl, by decide⟩

/-- Claim C8 (amended): `text` carries a non-empty body verbatim; an absent,
null, or empty body is mapped to an absent field. -/
theorem c8_amended_text_field (msg : RawMsg) (chat : Chat) (sn : Option String) :
    ((payloadOf msg chat sn none).text = none ↔ (msg.body = none ∨ msg.body = some ""))
    ∧ (∀ b, msg.body = some b → b ≠ "" → (payloadOf msg chat sn none).text = some b) := by
  constructor
  · cases hb : msg.body with
    | none => simp [payloadOf, basePayload, jsOrNull, jsOr, hb]
    | some b =>
      by_cases h : b = "" <;> simp [payloadOf, basePayload, jsOrNull, jsOr, hb, h]
  · intro b hb hne
    simp [payloadOf, basePayload, jsOrNull, jsOr, hb, hne]

/-- Claim C1, counterexample: normalizing a media message whose raw body is
the non-empty string `"hola"` produces — and the handler delivers — an
envelope in which the `text` field and all three media fields are present
at once (the `hasMedia` branch never clears `payload.text`), refuting
"never both groups at once". -/
theorem c1_counterexample_both_groups :
    (handleMessage []
        { msgFrom := "123@c.us", author := none, timestamp := 1,
          body := some "hola", hasMedia := true }
        { chat := Except.ok { isGroup := false, name := "" },
          contact := Except.error (),
          media := Except.ok { mimetype := "image/png", filename := none, data := "QUJD" },
          fetchIngest := Except.ok () }).2
      = MsgOutcome.delivered
          (payloadOf
            { msgFrom := "123@c.us", author := none, timestamp := 1,
              body := some "hola", hasMedia := true }
            { isGroup := false, name := "" } none
            (some { mimetype := "image/png", filename := none, data := "QUJD" }))
    ∧ textGroupPresent
        (payloadOf
          { msgFrom := "123@c.us", author := none, timestamp := 1,
            body := some "hola", hasMedia := true }
          { isGroup := false, name := "" } none
          (some { mimetype := "image/png", filename := none, data := "QUJD" })) = true
    ∧ mediaGroupPresent
        (payloadOf
          { msgFrom := "123@c.us", author := none, timestamp := 1,
            body := some "hola", hasMedia := true }
          { isGroup := false, name := "" } none
          (some { mimetype := "image/png", filename := none, data := "QUJD" })) = true
    ∧ (payloadOf
          { msgFrom := "123@c.us", author := none, timestamp := 1,
            body := some "hola", hasMedia := true }
          { isGroup := false, name := "" } none
          (some { mimetype := "image/png", filename := none, data := "QUJD" })).type
        = MsgType.media :=
  ⟨rfl, rfl, rfl, rfl⟩

/-- Claim C1 (amended): in every envelope the normalizer produces, the three
media fields are present iff `type = media` (iff a successful download
result was attached), while `text` is present iff the raw body is a
non-empty string — independently of `type`. So "exactly one group" fails
precisely for a media message with a non-empty body (both groups present)
and for a text message with an absent, null or empty body (neither). -/
theorem c1_amended_field_groups (msg : RawMsg) (chat : Chat)
    (sn : Option String) (om : Option Media) :
    (mediaGroupPresent (payloadOf msg chat sn om) = true
      ↔ (payloadOf msg chat sn om).type = MsgType.media)
    ∧ ((payloadOf msg chat sn om).type = MsgType.media ↔ om.isSome = true)
    ∧ (textGroupPresent (payloadOf msg chat sn om) = true
      ↔ ∃ b, msg.body = some b ∧ b ≠ "") := by
  refine ⟨?_, ?_, ?_⟩
  · cases om with
    | none => simp [payloadOf, basePayload, mediaGroupPresent]
    | some m => simp [payloadOf, basePayload, attachMedia, mediaGroupPresent]
  · cases om with
    | none => simp [payloadOf, basePayload]
    | some m => simp [payloadOf, basePayload, attachMedia]
  · have htext : (payloadOf msg chat sn om).text = jsOrNull msg.body := by
      cases om <;> rfl
    simp only [textGroupPresent, htext]
    cases hb : msg.body with
    | none => simp [jsOrNull, jsOr]
    | some b => by_cases h : b = "" <;> simp [jsOrNull, jsOr, h]

/-- Claim C5: when the raw message declares media and the download fails, the
whole event is dropped with a logged error — the effect trace stops at
`downloadMedia`, so no ingestion POST (hence no partial delivery) occurs. -/
theorem c5_media_failure_drops_event (wl : List String) (msg : RawMsg)
    (o : MsgOracle) (chat : Chat)
    (hchat : o.chat = Except.ok chat)
    (hfwd : shouldForward wl chat.isGroup chat.name = true)
    (hmedia : msg.hasMedia = true)
    (hdl : o.media = Except.error ()) :
    handleMessage wl msg o =
      ([Effect.getChat, Effect.getContact, Effect.downloadMedia], MsgOutcome.errorLogged)
    ∧ handleMessageLogs wl msg o = ["Error"]
    ∧ ∀ p, Effect.postIngest p ∉ (handleMessage wl msg o).1 := by
  have h1 : handleMessage wl msg o =
      ([Effect.getChat, Effect.getContact, Effect.downloadMedia], MsgOutcome.errorLogged) := by
    simp [handleMessage, messageTry, hchat, hfwd, hmedia, hdl]
  have h2 : handleMessageLogs wl msg o = ["Error"] := by
    simp [handleMessageLogs, messageTry, hchat, hfwd, hmedia, hdl]
  refine ⟨h1, h2, ?_⟩
  intro p
  rw [h1]
  simp

/-- Witness for C5 at a concrete input: a private-chat media message whose
download fails is dropped after the download attempt, with no POST. -/
theorem c5_media_failure_drops_event_witness :
    handleMessage []
      { msgFrom := "1@c.us", author := none, timestamp := 0,
        body := none, hasMedia := true }
      { chat := Except.ok { isGroup := false, name := "" },
        contact := Except.error (), media := Except.error (),
        fetchIngest := Except.ok () }
      = ([Effect.getChat, Effect.getContact, Effect.downloadMedia],
          MsgOutcome.errorLogged) :=
  (c5_media_failure_drops_event [] _ _ { isGroup := false, name := "" }
    rfl (by decide) rfl rfl).1

/-- Helper: whatever the payload, the serialized key list never contains a
key named `from` — the chat identifier key is spelled `from_`. -/
theorem from_key_absent (p : Payload) :
    "from" ∉ (payloadFields p).map Prod.fst := by
  cases hm : p.mimetype <;> cases hf : p.filename <;> cases hd : p.data_base64 <;>
    simp [payloadFields, hm, hf, hd]

/-- Claim C7, counterexample: the serialized envelope of a concrete text
message has the key list below — the chat identifier field is named
`from_`, and no key `from` exists. -/
theorem c7_counterexample_from_key :
    ((payloadFields (payloadOf
        { msgFrom := "123@c.us", author := none, timestamp := 7,
          body := some "hola", hasMedia := false }
        { isGroup := false, name := "" } none none)).map Prod.fst
      = ["from_", "author", "timestamp", "isGroup", "groupName", "groupId",
         "senderName", "senderNumber", "type", "text"])
    ∧ "from" ∉ ((payloadFields (payloadOf
        { msgFrom := "123@c.us", author := none, timestamp := 7,
          body := some "hola", hasMedia := false }
        { isGroup := false, name := "" } none none)).map Prod.fst) := by
  refine ⟨rfl, by decide⟩

/-- Claim C7 (amended): every serialized envelope carries the chat identifier
in a required string field named `from_` (there is no field named `from`),
and `groupId` is present and equal to that identifier exactly when
`isGroup` is true, otherwise null. -/
theorem c7_amended_from_field (msg : RawMsg) (chat : Chat) (sn : Option String)
    (om : Option Media) :
    ("from_", Jv.str msg.msgFrom) ∈ payloadFields (payloadOf msg chat sn om)
    ∧ "from" ∉ (payloadFields (payloadOf msg chat sn om)).map Prod.fst
    ∧ (chat.isGroup = true → (payloadOf msg chat sn om).groupId = some msg.msgFrom)
    ∧ (chat.isGroup = false → (payloadOf msg chat sn om).groupId = none) := by
  have hfrom : (payloadOf msg chat sn om).msgFrom = msg.msgFrom := by
    cases om <;> rfl
  have hgid : (payloadOf msg chat sn om).groupId
      = (if chat.isGroup then some msg.msgFrom else none) := by
    cases om <;> rfl
  refine ⟨?_, from_key_absent _, ?_, ?_⟩
  · simp [payloadFields, hfrom]
  · intro h; simp [hgid, h]
  · intro h; simp [hgid, h]

/-- Claim C9: when the contact lookup fails, `senderName` is absent, the
failure is not propagated, and the envelope is still built and delivered
(text and media cases alike), not dropped. -/
theorem c9_lookup_failure_soft (wl : List String) (msg : RawMsg) (o : MsgOracle)
    (chat : Chat) (m : Media)
    (hchat : o.chat = Except.ok chat)
    (hfwd : shouldForward wl chat.isGroup chat.name = true)
    (hcontact : o.contact = Except.error ())
    (hfetch : o.fetchIngest = Except.ok ()) :
    (msg.hasMedia = false →
      handleMessage wl msg o =
        ([Effect.getChat, Effect.getContact,
          Effect.postIngest (payloadOf msg chat none none)],
          MsgOutcome.delivered (payloadOf msg chat none none))
      ∧ (payloadOf msg chat none none).senderName = none)
    ∧ (msg.hasMedia = true → o.media = Except.ok m →
      handleMessage wl msg o =
        ([Effect.getChat, Effect.getContact, Effect.downloadMedia,
          Effect.postIngest (payloadOf msg chat none (some m))],
          MsgOutcome.delivered (payloadOf msg chat none (some m)))
      ∧ (payloadOf msg chat none (some m)).senderName = none) := by
  constructor
  · intro hm
    refine ⟨?_, rfl⟩
    simp [handleMessage, messageTry, hchat, hfwd, hcontact, hfetch, hm]
  · intro hm hmed
    refine ⟨?_, rfl⟩
    simp [handleMessage, messageTry, hchat, hfwd, hcontact, hfetch, hm, hmed]

/-- Witness for C9 at a concrete input: a private text message whose contact
lookup fails is still delivered, with `senderName` degraded to absent. -/
theorem c9_lookup_failure_soft_witness :
    handleMessage []
      { msgFrom := "54911@c.us", author := none, timestamp := 5,
        body := some "hola", hasMedia := false }
      { chat := Except.ok { isGroup := false, name := "" },
        contact := Except.error (), media := Except.error (),
        fetchIngest := Except.ok () }
      = ([Effect.getChat, Effect.getContact,
          Effect.postIngest (payloadOf
            { msgFrom := "54911@c.us", author := none, timestamp := 5,
              body := some "hola", hasMedia := false }
            { isGroup := false, name := "" } none none)],
          MsgOutcome.delivered (payloadOf
            { msgFrom := "54911@c.us", author := none, timestamp := 5,
              body := some "hola", hasMedia := false }
            { isGroup := false, name := "" } none none)) :=
  ((c9_lookup_failure_soft [] _ _ { isGroup := false, name := "" }
      { mimetype := "", filename := none, data := "" }
      rfl (by decide) rfl rfl).1 rfl).1

/-- Claim C10: a group message rejected by a non-empty whitelist makes the
handler return right after the chat lookup: the effect trace is exactly
`[getChat]`, so no contact lookup, no media download and no ingestion POST
happen for that event. -/
theorem c10_whitelist_miss_stops (wl : List String) (msg : RawMsg) (o : MsgOracle)
    (chat : Chat)
    (hchat : o.chat = Except.ok chat)
    (hg : chat.isGroup = true)
    (hwl : wl ≠ [])
    (hmem : chat.name ∉ wl) :
    handleMessage wl msg o = ([Effect.getChat], MsgOutcome.filtered)
    ∧ Effect.getContact ∉ (handleMessage wl msg o).1
    ∧ Effect.downloadMedia ∉ (handleMessage wl msg o).1
    ∧ ∀ p, Effect.postIngest p ∉ (handleMessage wl msg o).1 := by
  have hfwd : shouldForward wl chat.isGroup chat.name = false := by
    simp [shouldForward, hg, List.isEmpty_iff, hwl, hmem]
  have h1 : handleMessage wl msg o = ([Effect.getChat], MsgOutcome.filtered) := by
    simp [handleMessage, messageTry, hchat, hfwd]
  refine ⟨h1, ?_, ?_, ?_⟩ <;> simp [h1]

/-- Witness for C10 at a concrete input: a message in group `Familia` under
the whitelist `["Trabajo"]` is filtered right after the chat lookup. -/
theorem c10_whitelist_miss_stops_witness :
    handleMessage ["Trabajo"]
      { msgFrom := "1@g.us", author := some "2@c.us", timestamp := 0,
        body := some "hola", hasMedia := false }
      { chat := Except.ok { isGroup := true, name := "Familia" },
        contact := Except.error (), media := Except.error (),
        fetchIngest := Except.ok () }
      = ([Effect.getChat], MsgOutcome.filtered) :=
  (c10_whitelist_miss_stops ["Trabajo"] _ _ { isGroup := true, name := "Familia" }
    rfl rfl (by decide) (by decide)).1

/-- Helper: when the `try` body has reached the ingestion POST and the fetch
resolves — whatever the response status, since index.js never reads the
response — the message handler completes as a delivery of the posted
payload and logs nothing. -/
theorem message_post_resolved (wl : List String) (msg : RawMsg) (o : MsgOracle)
    (hfetch : o.fetchIngest = Except.ok ()) (p : Payload)
    (hp : Effect.postIngest p ∈ (messageTry wl msg o).1) :
    (messageTry wl msg o).2 = Except.ok (MsgDone.delivered p)
    ∧ (handleMessage wl msg o).2 = MsgOutcome.delivered p
    ∧ handleMessageLogs wl msg o = [] := by
  have key : (messageTry wl msg o).2 = Except.ok (MsgDone.delivered p) := by
    cases hc : o.chat with
    | error e => simp [messageTry, hc] at hp
    | ok chat =>
      by_cases hfwd : (!(shouldForward wl chat.isGroup chat.name)) = true
      · simp [messageTry, hc, hfwd] at hp
      · cases hm : msg.hasMedia with
        | false =>
          simp [messageTry, hc, hfwd, hm] at hp
          subst hp
          simp [messageTry, hc, hfwd, hm, hfetch]
        | true =>
          cases hmed : o.media with
          | error e => simp [messageTry, hc, hfwd, hm, hmed] at hp
          | ok m =>
            simp [messageTry, hc, hfwd, hm, hmed] at hp
            subst hp
            simp [messageTry, hc, hfwd, hm, hmed, hfetch]
  exact ⟨key, by simp [handleMessage, key], by simp [handleMessageLogs, key]⟩

/-- Claim C6, counterexample: two delivery-failure kinds the claim calls
"caught, logged, and swallowed" are logged by nobody. First, the `ready`
handler's empty `catch` swallows a rejected POST silently: the failing
run's console output equals the successful run's. Second, a non-success
HTTP response is never detected at all: node-fetch resolves it, no handler
inspects the response, so the message handler completes as a normal
delivery and logs nothing. -/
theorem c6_counterexample_silent_failures :
    (readyHandler (Except.error ()) = QrOutcome.errorCaught
      ∧ readyHandlerLogs (Except.error ()) = ["WA listo ✅"]
      ∧ readyHandlerLogs (Except.error ()) = readyHandlerLogs (Except.ok ()))
    ∧ (fetchObserved { resolved := true, ok := false } = Except.ok ()
      ∧ (handleMessage []
          { msgFrom := "54911@c.us", author := none, timestamp := 5,
            body := some "hola", hasMedia := false }
          { chat := Except.ok { isGroup := false, name := "" },
            contact := Except.error (), media := Except.error (),
            fetchIngest := fetchObserved { resolved := true, ok := false } }).2
          = MsgOutcome.delivered
              (payloadOf
                { msgFrom := "54911@c.us", author := none, timestamp := 5,
                  body := some "hola", hasMedia := false }
                { isGroup := false, name := "" } none none)
      ∧ handleMessageLogs []
          { msgFrom := "54911@c.us", author := none, timestamp := 5,
            body := some "hola", hasMedia := false }
          { chat := Except.ok { isGroup := false, name := "" },
            contact := Except.error (), media := Except.error (),
            fetchIngest := fetchObserved { resolved := true, ok := false } } = []) :=
  ⟨⟨rfl, rfl, rfl⟩, rfl, rfl, rfl⟩

/-- Claim C6 (amended): no failure of the HTTP POST ever propagates — every
handler returns a value instead of throwing, and a later event's handling
equals its standalone handling (the handlers share no mutable state). A
rejected fetch (network or timeout failure) is caught by every handler's
`try`/`catch` and logged by the qr handler and the message handler, while
the ready handler's empty catch swallows it silently. A resolved fetch,
whatever its status — in particular a non-success response — is never
detected as a failure: no handler inspects the response, so delivery
completes as on success and nothing is logged. -/
theorem c6_delivery_failure_isolated (wl : List String) (code : String)
    (msg : RawMsg) (o : MsgOracle) (r : FetchOutcome) (e1 e2 : Event) :
    (qrHandler code (Except.error ()) = QrOutcome.errorCaught
      ∧ qrHandlerLogs (Except.error ())
          = ["Escaneá este QR:", "No se pudo publicar el QR"]
      ∧ readyHandler (Except.error ()) = QrOutcome.errorCaught
      ∧ readyHandlerLogs (Except.error ()) = ["WA listo ✅"])
    ∧ (o.fetchIngest = Except.error () →
        ∀ p, Effect.postIngest p ∈ (messageTry wl msg o).1 →
          (messageTry wl msg o).2 = Except.error ()
          ∧ (handleMessage wl msg o).2 = MsgOutcome.errorLogged
          ∧ handleMessageLogs wl msg o = ["Error"])
    ∧ (r.resolved = true →
        fetchObserved r = Except.ok ()
        ∧ qrHandler code (fetchObserved r) = QrOutcome.posted (some code)
        ∧ qrHandlerLogs (fetchObserved r) = ["Escaneá este QR:"]
        ∧ readyHandler (fetchObserved r) = QrOutcome.posted none
        ∧ readyHandlerLogs (fetchObserved r) = ["WA listo ✅"]
        ∧ (o.fetchIngest = fetchObserved r →
            ∀ p, Effect.postIngest p ∈ (messageTry wl msg o).1 →
              (messageTry wl msg o).2 = Except.ok (MsgDone.delivered p)
              ∧ (handleMessage wl msg o).2 = MsgOutcome.delivered p
              ∧ handleMessageLogs wl msg o = []))
    ∧ processEvents wl [e1, e2] = [handleEvent wl e1, handleEvent wl e2] := by
  refine ⟨⟨rfl, rfl, rfl, rfl⟩, ?_, ?_, rfl⟩
  · intro hf p hp
    have key : (messageTry wl msg o).2 = Except.error () := by
      cases hc : o.chat with
      | error e => simp [messageTry, hc]
      | ok chat =>
        by_cases hfwd : (!(shouldForward wl chat.isGroup chat.name)) = true
        · simp [messageTry, hc, hfwd] at hp
        · cases hm : msg.hasMedia with
          | false => simp [messageTry, hc, hfwd, hm, hf]
          | true =>
            cases hmed : o.media with
            | error e => simp [messageTry, hc, hfwd, hm, hmed]
            | ok m => simp [messageTry, hc, hfwd, hm, hmed, hf]
    exact ⟨key, by simp [handleMessage, key], by simp [handleMessageLogs, key]⟩
  · intro hr
    have hobs : fetchObserved r = Except.ok () := by simp [fetchObserved, hr]
    refine ⟨hobs, ?_, ?_, ?_, ?_, ?_⟩
    · rw [hobs]; rfl
    · rw [hobs]; rfl
    · rw [hobs]; rfl
    · rw [hobs]; rfl
    · intro hfetch p hp
      rw [hobs] at hfetch
      exact message_post_resolved wl msg o hfetch p hp

/-- Witness for C6 at a concrete input: with the ingestion sink failing, the
message handler's `try` body raises at the POST and the handler returns the
logged-error outcome; the qr handler likewise returns instead of throwing. -/
theorem c6_delivery_failure_isolated_witness :
    (handleMessage []
        { msgFrom := "54911@c.us", author := none, timestamp := 5,
          body := some "hola", hasMedia := false }
        { chat := Except.ok { isGroup := false, name := "" },
          contact := Except.error (), media := Except.error (),
          fetchIngest := Except.error () }).2 = MsgOutcome.errorLogged
    ∧ handleMessageLogs []
        { msgFrom := "54911@c.us", author := none, timestamp := 5,
          body := some "hola", hasMedia := false }
        { chat := Except.ok { isGroup := false, name := "" },
          contact := Except.error (), media := Except.error (),
          fetchIngest := Except.error () } = ["Error"]
    ∧ (handleMessage []
        { msgFrom := "54911@c.us", author := none, timestamp := 5,
          body := some "hola", hasMedia := false }
        { chat := Except.ok { isGroup := false, name := "" },
          contact := Except.error (), media := Except.error (),
          fetchIngest := fetchObserved { resolved := true, ok := false } }).2
        = MsgOutcome.delivered
            (payloadOf
              { msgFrom := "54911@c.us", author := none, timestamp := 5,
                body := some "hola", hasMedia := false }
              { isGroup := false, name := "" } none none)
    ∧ handleMessageLogs []
        { msgFrom := "54911@c.us", author := none, timestamp := 5,
          body := some "hola", hasMedia := false }
        { chat := Except.ok { isGroup := false, name := "" },
          contact := Except.error (), media := Except.error (),
          fetchIngest := fetchObserved { resolved := true, ok := false } } = []
    ∧ qrHandler "ABC" (Except.error ()) = QrOutcome.errorCaught := by
  have hrej := c6_delivery_failure_isolated [] "ABC"
    { msgFrom := "54911@c.us", author := none, timestamp := 5,
      body := some "hola", hasMedia := false }
    { chat := Except.ok { isGroup := false, name := "" },
      contact := Except.error (), media := Except.error (),
      fetchIngest := Except.error () }
    { resolved := true, ok := false }
    (Event.readyEv (Except.ok ())) (Event.readyEv (Except.ok ()))
  have hres := c6_delivery_failure_isolated [] "ABC"
    { msgFrom := "54911@c.us", author := none, timestamp := 5,
      body := some "hola", hasMedia := false }
    { chat := Except.ok { isGroup := false, name := "" },
      contact := Except.error (), media := Except.error (),
      fetchIngest := fetchObserved { resolved := true, ok := false } }
    { resolved := true, ok := false }
    (Event.readyEv (Except.ok ())) (Event.readyEv (Except.ok ()))
  refine ⟨?_, ?_, ?_, ?_, hrej.1.1⟩
  · exact (hrej.2.1 rfl
      (payloadOf
        { msgFrom := "54911@c.us", author := none, timestamp := 5,
          body := some "hola", hasMedia := false }
        { isGroup := false, name := "" } none none) (by decide)).2.1
  · exact (hrej.2.1 rfl
      (payloadOf
        { msgFrom := "54911@c.us", author := none, timestamp := 5,
          body := some "hola", hasMedia := false }
        { isGroup := false, name := "" } none none) (by decide)).2.2
  · exact ((hres.2.2.1 rfl).2.2.2.2.2 rfl
      (payloadOf
        { msgFrom := "54911@c.us", author := none, timestamp := 5,
          body := some "hola", hasMedia := false }
        { isGroup := false, name := "" } none none) (by decide)).2.1
  · exact ((hres.2.2.1 rfl).2.2.2.2.2 rfl
      (payloadOf
        { msgFrom := "54911@c.us", author := none, timestamp := 5,
          body := some "hola", hasMedia := false }
        { isGroup := false, name := "" } none none) (by decide)).2.2

end WaCaptor
